import Mathlib

/-!
Verification of the `tor-chanmgr` abstract channel manager
(`crates/tor-chanmgr/src/mgr.rs`): a shallow embedding of
`AbstractChanMgr::get_or_launch_internal` — its decide step, its two
reconcile steps (build success and build failure), and its retry loop —
together with a model of the channel-state map that `mgr.rs` manipulates.

The map module (`mgr/map.rs`) is not among the excerpted sources; its
operations (`by_all_ids`, `all_overlapping`, `try_insert`, `remove_exact`,
`insert`, `reconfigure_general`) are modelled from the specification, as
marked on each definition.  Everything else is translated directly from
`mgr.rs`.

Modelling conventions:
  - relay identity sets (`RelayIds`) carry at most one value per identity
    type; two types (Ed25519, RSA) suffice for every behaviour the
    manager's code distinguishes, with `Nat` standing for key values;
  - channels are abstract records exposing exactly the hooks `mgr.rs`
    uses: their identity set, `is_usable`, and whether `reparameterize`
    succeeds; a `tag` field gives them identity;
  - the oneshot sender / shared future pair of a Building entry is
    represented by a numeric attempt id; the outcomes of the two
    suspension points (awaiting a shared pending future, awaiting
    `build_channel`) are supplied by an environment oracle `Env`;
  - actions of other concurrent tasks are modelled by interference
    functions in `Env`, applied wherever the manager is not inside a
    critical section (each `with_channels` closure is one atomic step);
  - the run records an event trace (`acq`/`rel` for the map lock,
    `susp` for each await) so that lock-discipline properties can be
    stated, plus the values sent on each attempt's oneshot sender and
    every error recorded into `last_err`.
-/

namespace ChanMgr

/-- Identity-key types a relay can be addressed by (model of
`tor_linkspec::RelayIdType`: Ed25519 and RSA). -/
structure RelayIds where
  ed : Option Nat
  rsa : Option Nat
deriving DecidableEq, Repr

/-- True iff the two identity sets share at least one (type, value) pair
(model of `tor_linkspec::HasRelayIds::has_any_relay_id_from`). -/
def RelayIds.overlaps (a b : RelayIds) : Bool :=
  (match a.ed, b.ed with
   | some x, some y => decide (x = y)
   | _, _ => false)
  ||
  (match a.rsa, b.rsa with
   | some x, some y => decide (x = y)
   | _, _ => false)

/-- True iff `a` holds every (type, value) pair of `b` (model of
`tor_linkspec::HasRelayIds::has_all_relay_ids_from`: `chan` has all
relay ids from `target`). -/
def RelayIds.hasAllIdsFrom (a b : RelayIds) : Bool :=
  (match b.ed with
   | some x => decide (a.ed = some x)
   | none => true)
  &&
  (match b.rsa with
   | some x => decide (a.rsa = some x)
   | none => true)

/-- Abstract channel: exactly the surface of `AbstractChannel` that
`get_or_launch_internal` touches, plus a `tag` giving channel identity.
`reparamOk` records whether this channel's `reparameterize` hook
succeeds (the hook is an external collaborator). -/
structure Channel where
  tag : Nat
  ids : RelayIds
  usable : Bool
  reparamOk : Bool
deriving DecidableEq, Repr

/-- Errors of `tor-chanmgr` visible in `get_or_launch_internal`:
`IdentityConflict` and `Internal` appear literally in `mgr.rs`;
`Conflict` is the error of the map's `try_insert` (spec §4.2); opaque
factory build errors are folded into `External`. -/
inductive Error where
  | IdentityConflict
  | Internal (msg : String)
  | Conflict
  | External (n : Nat)
deriving DecidableEq, Repr

/-- Model of `ChanProvenance` (`Preexisting` / `NewlyCreated`). -/
inductive ChanProvenance where
  | Preexisting
  | NewlyCreated
deriving DecidableEq, Repr

/-- A record of the channel state map: `Open` carries the channel and its
fixed idle budget `max_unused_duration` (in seconds); `Building` carries
the requested identity set and the attempt id standing for the shared
pending future (model of `ChannelState` in `mgr/map.rs`, whose two
entries `OpenEntry`/`PendingEntry` are visible in `mgr.rs`). -/
inductive ChannelState where
  | Open (channel : Channel) (max_unused_duration : Nat)
  | Building (ids : RelayIds) (pending : Nat)
deriving DecidableEq, Repr

/-- The identity-set key of a record. -/
def ChannelState.ids : ChannelState → RelayIds
  | .Open c _ => c.ids
  | .Building i _ => i

/-- True iff the record is `Building` (the predicate
`matches!(entry, Building(_))` of `mgr.rs`). -/
def ChannelState.isBuilding : ChannelState → Bool
  | .Building _ _ => true
  | _ => false

/-- True iff the record is `Open` with a usable channel (the predicate
`matches!(entry, Open(OpenEntry{channel, ..}) if channel.is_usable())`
of `mgr.rs`). -/
def ChannelState.isOpenUsable : ChannelState → Bool
  | .Open c _ => c.usable
  | _ => false

/-- The channel state map, keyed by identity set. -/
abbrev ChanMap := List ChannelState

/-- Modelled from the spec: `lookup_exact` / `by_all_ids` of the missing
`mgr/map.rs` — "exact identity-set match" (§4.2). -/
def by_all_ids (m : ChanMap) (t : RelayIds) : Option ChannelState :=
  m.find? (fun e => decide (e.ids = t))

/-- Modelled from the spec: `lookup_overlapping` / `all_overlapping` of
the missing `mgr/map.rs` — "all records sharing ≥1 identity with target
but not exact" (§4.2). -/
def all_overlapping (m : ChanMap) (t : RelayIds) : List ChannelState :=
  m.filter (fun e => e.ids.overlaps t && !decide (e.ids = t))

/-- Modelled from the spec: `remove_exact` of the missing `mgr/map.rs` —
"removes and returns the record keyed by the exact identity set, or
`None`" (§4.2). -/
def remove_exact (m : ChanMap) (t : RelayIds) : Option ChannelState × ChanMap :=
  (m.find? (fun e => decide (e.ids = t)), m.filter (fun e => !decide (e.ids = t)))

/-- Modelled from the spec: unconditional `insert` of the missing
`mgr/map.rs` — "unconditional insert/replace" for the record's exact
identity-set key (§4.2). -/
def insert (m : ChanMap) (e : ChannelState) : ChanMap :=
  m.filter (fun x => !decide (x.ids = e.ids)) ++ [e]

/-- Modelled from the spec: `try_insert` of the missing `mgr/map.rs`.
Per §4.2 it fails with a `Conflict` error when a conflicting entry
already exists, and otherwise inserts; per the decide step of §4.4
("Exact match, Open, unusable → remove it, insert a new Building record
for this target") the one insertion over an exact-match entry replaces
that entry, so only an overlapping-but-not-exact entry is a conflict.
(`mgr.rs`'s own `unusable_entries` test requires the replacing insert to
succeed.) -/
def try_insert (m : ChanMap) (e : ChannelState) : Except Error ChanMap :=
  if (all_overlapping m e.ids).isEmpty then .ok (insert m e) else .error .Conflict

/-- Modelled from the spec: `reconfigure`/`reconfigure_general` of the
missing `mgr/map.rs` — "applies updated parameters to every Open record
by invoking the Channel's reconfiguration hook" (§4.2); the hook, an
external collaborator, is the function `f` on channels.  Building
records and each Open record's `max_unused_duration` are untouched. -/
def reconfigure_general (f : Channel → Channel) (m : ChanMap) : ChanMap :=
  m.map (fun e =>
    match e with
    | .Open c d => .Open (f c) d
    | b => b)

instance {ε α : Type} [DecidableEq ε] [DecidableEq α] : DecidableEq (Except ε α) := fun a b =>
  match a, b with
  | .ok x, .ok y =>
      if h : x = y then .isTrue (by simp [h]) else .isFalse (by simp [h])
  | .ok _, .error _ => .isFalse (by simp)
  | .error _, .ok _ => .isFalse (by simp)
  | .error x, .error y =>
      if h : x = y then .isTrue (by simp [h]) else .isFalse (by simp [h])

/-- The possible actions of the decide step (the local `enum Action` of
`get_or_launch_internal`): `Launch` carries the attempt id standing for
the oneshot sender, `Wait` the attempt id of the shared pending future,
`Return` a terminal result. -/
inductive Action where
  | Launch (pendId : Nat)
  | Wait (pendId : Nat)
  | Return (v : Except Error (Channel × ChanProvenance))
deriving DecidableEq, Repr

/-- The decide step of `get_or_launch_internal` (`mgr.rs` lines 188-260):
the body of the `with_channels` closure that classifies the map state
into an `Action`, possibly inserting a Building record via `try_insert`.
Returns the (possibly updated) map alongside; a `.error` result is the
closure's `Err`, which the caller propagates with `?`.  `pendId` is the
fresh attempt id taken by `setup_launch`. -/
def decideAction (m : ChanMap) (target : RelayIds) (pendId : Nat) :
    Except Error Action × ChanMap :=
  match by_all_ids m target with
  | some (.Open ch _d) =>
      if ch.usable then
        (.ok (.Return (.ok (ch, .Preexisting))), m)
      else
        match try_insert m (.Building target pendId) with
        | .ok m1 => (.ok (.Launch pendId), m1)
        | .error e => (.error e, m)
  | some (.Building _ p) => (.ok (.Wait p), m)
  | none =>
      let overlapping := all_overlapping m target
      if overlapping.any ChannelState.isOpenUsable then
        (.ok (.Return (.error .IdentityConflict)), m)
      else
        match overlapping.find? ChannelState.isBuilding with
        | some (.Building _ p) => (.ok (.Wait p), m)
        | some (.Open _ _) => (.error (.Internal "unreachable"), m)
        | none =>
            match try_insert m (.Building target pendId) with
            | .ok m1 => (.ok (.Launch pendId), m1)
            | .error e => (.error e, m)

/-- The idle-budget sampler: models
`rand::thread_rng().gen_range(lo..hi)` with an explicit `seed` standing
for the random source; the result lies in `[lo, hi)` exactly as
`gen_range` guarantees. -/
def gen_range (lo hi seed : Nat) : Nat := lo + seed % (hi - lo)

/-- The build-success reconcile step of `get_or_launch_internal`
(`mgr.rs` lines 297-341): the body of the `with_channels_and_params`
closure run after `build_channel` succeeds with `chan`.  `hasUpdate`
models `channels_params.initial_update()` being `Some`; a failing
`chan.reparameterize` is `chan.reparamOk = false` and is mapped to
`internal!("failure on new channel")`.  Returns the closure's `status`
and the updated map. -/
def finishSuccess (m : ChanMap) (target : RelayIds) (chan : Channel)
    (hasUpdate : Bool) (seed : Nat) : Except Error Channel × ChanMap :=
  match remove_exact m target with
  | (some (.Building _ _), m1) =>
      if hasUpdate && !chan.reparamOk then
        (.error (.Internal "failure on new channel"), m1)
      else
        (.ok chan, insert m1 (.Open chan (gen_range 180 270 seed)))
  | (none, _m1) => (.error .IdentityConflict, m)
  | (some (.Open c d), m1) => (.error .IdentityConflict, insert m1 (.Open c d))

/-- The build-failure reconcile step of `get_or_launch_internal`
(`mgr.rs` lines 356-369): the `with_channels` closure run after
`build_channel` fails — remove the pending entry if it is still there,
putting back any Open entry found instead. -/
def finishFailure (m : ChanMap) (target : RelayIds) : ChanMap :=
  match remove_exact m target with
  | (some (.Building _ _), m1) => m1
  | (none, _m1) => m
  | (some (.Open c d), m1) => insert m1 (.Open c d)

/-- Outcome of awaiting a Building record's shared pending future:
`Ok(Ok(chan))`, `Ok(Err(e))`, or `Err(Canceled)` when the sender was
dropped without sending. -/
inductive WaitOutcome where
  | ok (c : Channel)
  | err (e : Error)
  | vanished
deriving Repr

/-- Outcome of awaiting `Factory::build_channel`. -/
inductive BuildOutcome where
  | ok (c : Channel)
  | err (e : Error)
deriving Repr

/-- Events of a run, for stating the lock discipline: `acq`/`rel`
bracket each critical section (a `with_channels` /
`with_channels_and_params` closure), `susp` marks each await (on a
shared pending future or on `build_channel`). -/
inductive Ev where
  | acq
  | rel
  | susp
deriving DecidableEq, Repr

/-- Environment oracle for one run of `get_or_launch_internal`, indexed
by attempt number: the outcome of each suspension point, the random
seed and `initial_update` presence for the success reconcile, and the
interference of other concurrent tasks on the shared map —
`interfereStart` acts between iterations (before the decide step),
`interfereAwait` acts while this task is suspended. -/
structure Env where
  waitOutcome : Nat → WaitOutcome
  buildOutcome : Nat → BuildOutcome
  rngSeed : Nat → Nat
  hasInitialUpdate : Nat → Bool
  interfereStart : Nat → ChanMap → ChanMap
  interfereAwait : Nat → ChanMap → ChanMap

/-- Result of one iteration of the decide/act loop: either a terminal
result (`done`) or a recorded error and another go (`retry`); both carry
the map as left by the iteration, the events emitted, the messages sent
on this attempt's oneshot sender, and the attempts on which
`build_channel` was invoked. -/
inductive StepRes where
  | done (r : Except Error (Channel × ChanProvenance)) (m : ChanMap)
      (tr : List Ev) (sent : List (Nat × Except Error Channel)) (builds : List Nat)
  | retry (e : Error) (m : ChanMap)
      (tr : List Ev) (sent : List (Nat × Except Error Channel)) (builds : List Nat)

/-- One iteration of the decide/act loop of `get_or_launch_internal`
(`mgr.rs` lines 180-379), for attempt `i`: decide under the lock, then
act — return, await the shared future, or build and reconcile.  A
`.error` from the decide closure is propagated directly (the `action?`),
ending the whole call. -/
def step (env : Env) (target : RelayIds) (i : Nat) (m : ChanMap) : StepRes :=
  let m0 := env.interfereStart i m
  match decideAction m0 target i with
  | (.error e, m1) => .done (.error e) m1 [.acq, .rel] [] []
  | (.ok (.Return v), m1) => .done v m1 [.acq, .rel] [] []
  | (.ok (.Wait _p), m1) =>
      let m2 := env.interfereAwait i m1
      match env.waitOutcome i with
      | .ok chan =>
          if chan.ids.hasAllIdsFrom target then
            .done (.ok (chan, .NewlyCreated)) m2 [.acq, .rel, .susp] [] []
          else
            .retry .IdentityConflict m2 [.acq, .rel, .susp] [] []
      | .err e => .retry e m2 [.acq, .rel, .susp] [] []
      | .vanished =>
          .retry (.Internal "channel build task disappeared") m2 [.acq, .rel, .susp] [] []
  | (.ok (.Launch _s), m1) =>
      match env.buildOutcome i with
      | .ok chan =>
          let m2 := env.interfereAwait i m1
          match finishSuccess m2 target chan (env.hasInitialUpdate i) (env.rngSeed i) with
          | (.ok c, m3) =>
              .done (.ok (c, .NewlyCreated)) m3 [.acq, .rel, .susp, .acq, .rel]
                [(i, .ok c)] [i]
          | (.error e, m3) =>
              .retry e m3 [.acq, .rel, .susp, .acq, .rel] [(i, .error e)] [i]
      | .err e =>
          let m2 := env.interfereAwait i m1
          .retry e (finishFailure m2 target) [.acq, .rel, .susp, .acq, .rel]
            [(i, .error e)] [i]

/-- `const N_ATTEMPTS: usize = 2` of `get_or_launch_internal`. -/
def N_ATTEMPTS : Nat := 2

/-- Observable outcome of a whole `get_or_launch_internal` run: the
returned result, the final map, the event trace, all sender messages,
the attempts that invoked `build_channel`, how many loop iterations ran,
whether the `for` loop was exhausted, the value of `last_err` at
exhaustion, and every error assigned to `last_err`, in order. -/
structure RunOut where
  result : Except Error (Channel × ChanProvenance)
  map : ChanMap
  trace : List Ev
  sent : List (Nat × Except Error Channel)
  builds : List Nat
  attempts : Nat
  exhausted : Bool
  finalLastErr : Option Error
  recorded : List Error
deriving Repr

/-- The retry loop of `get_or_launch_internal`: `fuel` iterations remain
(attempt index `N_ATTEMPTS - fuel`), `lastErr` is the current
`last_err`.  With fuel exhausted it returns
`Err(last_err.unwrap_or_else(|| internal!("no error was set!?")))`. -/
def loopRec (env : Env) (target : RelayIds) :
    Nat → ChanMap → Option Error → RunOut
  | 0, m, lastErr =>
      { result := .error (lastErr.getD (.Internal "no error was set!?"))
        map := m, trace := [], sent := [], builds := [], attempts := 0
        exhausted := true, finalLastErr := lastErr, recorded := [] }
  | fuel + 1, m, lastErr =>
      match step env target (N_ATTEMPTS - (fuel + 1)) m with
      | .done r m1 tr s b =>
          { result := r, map := m1, trace := tr, sent := s, builds := b
            attempts := 1, exhausted := false, finalLastErr := lastErr
            recorded := [] }
      | .retry e m1 tr s b =>
          let rest := loopRec env target fuel m1 (some e)
          { result := rest.result, map := rest.map, trace := tr ++ rest.trace
            sent := s ++ rest.sent, builds := b ++ rest.builds
            attempts := rest.attempts + 1, exhausted := rest.exhausted
            finalLastErr := rest.finalLastErr, recorded := e :: rest.recorded }

/-- `get_or_launch_internal` itself: run the loop for `N_ATTEMPTS`
attempts starting with `last_err = None`. -/
def get_or_launch_internal (env : Env) (target : RelayIds) (m : ChanMap) : RunOut :=
  loopRec env target N_ATTEMPTS m none

/-- Lock-discipline checker: scan a trace with the current held state;
`none` flags a violation — acquiring while held, releasing while not
held, or suspending (`susp`) while the lock is held; otherwise returns
the held state after the trace. -/
def scanHeld : Bool → List Ev → Option Bool
  | h, [] => some h
  | h, .acq :: t => if h then none else scanHeld true t
  | h, .rel :: t => if h then scanHeld false t else none
  | h, .susp :: t => if h then none else scanHeld false t

/-!  Helper lemmas: unfolding the retry loop a bounded number of steps,
and basic facts about the map operations. -/

theorem loopRec_zero (env : Env) (target : RelayIds) (m : ChanMap) (le : Option Error) :
    loopRec env target 0 m le =
      { result := .error (le.getD (.Internal "no error was set!?"))
        map := m, trace := [], sent := [], builds := [], attempts := 0
        exhausted := true, finalLastErr := le, recorded := [] } := by
  rw [loopRec]

theorem loopRec_one_done (env : Env) (target : RelayIds) (m : ChanMap) (le : Option Error)
    {r m1 tr s b} (h : step env target 1 m = .done r m1 tr s b) :
    loopRec env target 1 m le =
      { result := r, map := m1, trace := tr, sent := s, builds := b, attempts := 1
        exhausted := false, finalLastErr := le, recorded := [] } := by
  conv_lhs => rw [show (1 : Nat) = 0 + 1 from rfl]
  rw [loopRec, show N_ATTEMPTS - (0 + 1) = 1 from rfl, h]

theorem loopRec_one_retry (env : Env) (target : RelayIds) (m : ChanMap) (le : Option Error)
    {e m1 tr s b} (h : step env target 1 m = .retry e m1 tr s b) :
    loopRec env target 1 m le =
      { result := .error e, map := m1, trace := tr, sent := s, builds := b, attempts := 1
        exhausted := true, finalLastErr := some e, recorded := [e] } := by
  conv_lhs => rw [show (1 : Nat) = 0 + 1 from rfl]
  rw [loopRec, show N_ATTEMPTS - (0 + 1) = 1 from rfl, h]
  simp [loopRec_zero]

theorem run_eq_done (env : Env) (target : RelayIds) (m : ChanMap)
    {r m1 tr s b} (h : step env target 0 m = .done r m1 tr s b) :
    get_or_launch_internal env target m =
      { result := r, map := m1, trace := tr, sent := s, builds := b, attempts := 1
        exhausted := false, finalLastErr := none, recorded := [] } := by
  rw [get_or_launch_internal, show N_ATTEMPTS = 1 + 1 from rfl, loopRec,
    show N_ATTEMPTS - (1 + 1) = 0 from rfl, h]

theorem run_eq_retry (env : Env) (target : RelayIds) (m : ChanMap)
    {e m1 tr s b} (h : step env target 0 m = .retry e m1 tr s b) :
    get_or_launch_internal env target m =
      { result := (loopRec env target 1 m1 (some e)).result
        map := (loopRec env target 1 m1 (some e)).map
        trace := tr ++ (loopRec env target 1 m1 (some e)).trace
        sent := s ++ (loopRec env target 1 m1 (some e)).sent
        builds := b ++ (loopRec env target 1 m1 (some e)).builds
        attempts := (loopRec env target 1 m1 (some e)).attempts + 1
        exhausted := (loopRec env target 1 m1 (some e)).exhausted
        finalLastErr := (loopRec env target 1 m1 (some e)).finalLastErr
        recorded := e :: (loopRec env target 1 m1 (some e)).recorded } := by
  rw [get_or_launch_internal, show N_ATTEMPTS = 1 + 1 from rfl, loopRec,
    show N_ATTEMPTS - (1 + 1) = 0 from rfl, h]

theorem by_all_ids_some_ids {m : ChanMap} {t : RelayIds} {st : ChannelState}
    (h : by_all_ids m t = some st) : st.ids = t := by
  have := List.find?_some h
  exact of_decide_eq_true this

theorem by_all_ids_insert_self (m : ChanMap) (e : ChannelState) :
    by_all_ids (insert m e) e.ids = some e := by
  unfold by_all_ids insert
  rw [List.find?_append]
  have h1 : (m.filter (fun x => !decide (x.ids = e.ids))).find?
      (fun x => decide (x.ids = e.ids)) = none := by
    rw [List.find?_eq_none]
    intro x hx
    rcases List.mem_filter.mp hx with ⟨_, hpx⟩
    simp only [Bool.not_eq_true'] at hpx
    simp [hpx]
  rw [h1]
  simp [List.find?_cons]

theorem remove_exact_snd_by_all_ids (m : ChanMap) (t : RelayIds) :
    by_all_ids (remove_exact m t).2 t = none := by
  unfold by_all_ids remove_exact
  rw [List.find?_eq_none]
  intro x hx
  rcases List.mem_filter.mp hx with ⟨_, hpx⟩
  simpa using hpx

theorem decideAction_overlap_conflict {m : ChanMap} {target : RelayIds} (p : Nat)
    (h1 : by_all_ids m target = none)
    (h2 : (all_overlapping m target).any ChannelState.isOpenUsable = true) :
    decideAction m target p = (.ok (.Return (.error .IdentityConflict)), m) := by
  unfold decideAction
  rw [h1]
  simp [h2]

theorem decideAction_exact_building {m : ChanMap} {target i0 : RelayIds} {p : Nat} (q : Nat)
    (h1 : by_all_ids m target = some (.Building i0 p)) :
    decideAction m target q = (.ok (.Wait p), m) := by
  unfold decideAction
  rw [h1]

theorem decideAction_open_usable {m : ChanMap} {target : RelayIds} {ch : Channel} {d : Nat}
    (p : Nat) (h1 : by_all_ids m target = some (.Open ch d)) (h2 : ch.usable = true) :
    decideAction m target p = (.ok (.Return (.ok (ch, .Preexisting))), m) := by
  unfold decideAction
  rw [h1]
  simp [h2]

theorem decideAction_open_unusable {m : ChanMap} {target : RelayIds} {ch : Channel} {d : Nat}
    (p : Nat) (h1 : by_all_ids m target = some (.Open ch d)) (h2 : ch.usable = false)
    (h3 : all_overlapping m target = []) :
    decideAction m target p = (.ok (.Launch p), insert m (.Building target p)) := by
  unfold decideAction
  rw [h1]
  simp only [h2, Bool.false_eq_true, if_false]
  unfold try_insert
  simp [ChannelState.ids, h3]

theorem decideAction_empty_launch {m : ChanMap} {target : RelayIds} (p : Nat)
    (h1 : by_all_ids m target = none) (h3 : all_overlapping m target = []) :
    decideAction m target p = (.ok (.Launch p), insert m (.Building target p)) := by
  unfold decideAction
  rw [h1]
  unfold try_insert
  simp [ChannelState.ids, h3]

theorem step_done_of_return {env : Env} {target : RelayIds} {i : Nat} {m : ChanMap}
    {v m1} (h : decideAction (env.interfereStart i m) target i = (.ok (.Return v), m1)) :
    step env target i m = .done v m1 [.acq, .rel] [] [] := by
  simp only [step]
  rw [h]

theorem step_wait_ok_satisfied {env : Env} {target : RelayIds} {i : Nat} {m : ChanMap}
    {p m1 chan} (h : decideAction (env.interfereStart i m) target i = (.ok (.Wait p), m1))
    (hw : env.waitOutcome i = .ok chan) (hs : chan.ids.hasAllIdsFrom target = true) :
    step env target i m =
      .done (.ok (chan, .NewlyCreated)) (env.interfereAwait i m1) [.acq, .rel, .susp] [] [] := by
  simp only [step]
  rw [h, hw]
  simp [hs]

theorem step_wait_vanished {env : Env} {target : RelayIds} {i : Nat} {m : ChanMap}
    {p m1} (h : decideAction (env.interfereStart i m) target i = (.ok (.Wait p), m1))
    (hw : env.waitOutcome i = .vanished) :
    step env target i m =
      .retry (.Internal "channel build task disappeared") (env.interfereAwait i m1)
        [.acq, .rel, .susp] [] [] := by
  simp only [step]
  rw [h, hw]

theorem step_launch_fail {env : Env} {target : RelayIds} {i : Nat} {m : ChanMap}
    {q m1 e} (h : decideAction (env.interfereStart i m) target i = (.ok (.Launch q), m1))
    (hb : env.buildOutcome i = .err e) :
    step env target i m =
      .retry e (finishFailure (env.interfereAwait i m1) target)
        [.acq, .rel, .susp, .acq, .rel] [(i, .error e)] [i] := by
  simp only [step]
  rw [h, hb]

theorem step_launch_ok_good {env : Env} {target : RelayIds} {i : Nat} {m : ChanMap}
    {q m1 chan c m3} (h : decideAction (env.interfereStart i m) target i = (.ok (.Launch q), m1))
    (hb : env.buildOutcome i = .ok chan)
    (hf : finishSuccess (env.interfereAwait i m1) target chan (env.hasInitialUpdate i)
        (env.rngSeed i) = (.ok c, m3)) :
    step env target i m =
      .done (.ok (c, .NewlyCreated)) m3 [.acq, .rel, .susp, .acq, .rel] [(i, .ok c)] [i] := by
  simp only [step]
  rw [h, hb]
  simp [hf]

theorem step_launch_ok_bad {env : Env} {target : RelayIds} {i : Nat} {m : ChanMap}
    {q m1 chan e m3} (h : decideAction (env.interfereStart i m) target i = (.ok (.Launch q), m1))
    (hb : env.buildOutcome i = .ok chan)
    (hf : finishSuccess (env.interfereAwait i m1) target chan (env.hasInitialUpdate i)
        (env.rngSeed i) = (.error e, m3)) :
    step env target i m =
      .retry e m3 [.acq, .rel, .susp, .acq, .rel] [(i, .error e)] [i] := by
  simp only [step]
  rw [h, hb]
  simp [hf]

/-!  Concrete fixtures used by witnesses and counterexamples. -/

/-- An environment with no interference, vanished waits, and failing
builds; fixture variants override single oracles. -/
def sampleEnv : Env :=
  { waitOutcome := fun _ => .vanished
    buildOutcome := fun _ => .err (.External 7)
    rngSeed := fun _ => 0
    hasInitialUpdate := fun _ => false
    interfereStart := fun _ m => m
    interfereAwait := fun _ m => m }

/-- Target identity set holding an Ed25519 and an RSA identity. -/
def idsA : RelayIds := { ed := some 1, rsa := some 2 }

/-- Identity set sharing only the Ed25519 identity with `idsA`. -/
def idsB : RelayIds := { ed := some 1, rsa := none }

/-- A usable open channel holding only `idsB`. -/
def chanB : Channel := { tag := 0, ids := idsB, usable := true, reparamOk := true }

/-- A usable channel holding all of `idsA`'s identities. -/
def chanA : Channel := { tag := 9, ids := idsA, usable := true, reparamOk := true }

/-!  The claims. -/

/-- C1: for every target identity set with no exact-match entry in the
channel map, if at least one overlapping record is Open and its channel
is usable, the decide step returns the `IdentityConflict` error
immediately: the run terminates on the first attempt with that error and
`build_channel` is never invoked. -/
theorem overlap_open_usable_identity_conflict
    (env : Env) (m : ChanMap) (target : RelayIds)
    (h1 : by_all_ids (env.interfereStart 0 m) target = none)
    (h2 : (all_overlapping (env.interfereStart 0 m) target).any
        ChannelState.isOpenUsable = true) :
    (get_or_launch_internal env target m).result = .error .IdentityConflict ∧
    (get_or_launch_internal env target m).builds = [] ∧
    (get_or_launch_internal env target m).attempts = 1 := by
  have hs := step_done_of_return (decideAction_overlap_conflict 0 h1 h2)
  rw [run_eq_done env target m hs]
  exact ⟨rfl, rfl, rfl⟩

/-- Witness for C1: a usable open channel holding only the Ed25519 half
of the target's identities forces an immediate `IdentityConflict` with
no build. -/
theorem overlap_open_usable_identity_conflict_witness :
    (by_all_ids (sampleEnv.interfereStart 0 [.Open chanB 200]) idsA = none) ∧
    ((all_overlapping (sampleEnv.interfereStart 0 [.Open chanB 200]) idsA).any
        ChannelState.isOpenUsable = true) ∧
    (get_or_launch_internal sampleEnv idsA [.Open chanB 200]).result =
      .error .IdentityConflict ∧
    (get_or_launch_internal sampleEnv idsA [.Open chanB 200]).builds = [] ∧
    (get_or_launch_internal sampleEnv idsA [.Open chanB 200]).attempts = 1 :=
  ⟨by decide, by decide,
    overlap_open_usable_identity_conflict sampleEnv [.Open chanB 200] idsA
      (by decide) (by decide)⟩

/-- A channel holding all of `idsA`'s identities that is not usable. -/
def chanU : Channel := { tag := 3, ids := idsA, usable := false, reparamOk := true }

/-- Environment whose shared-future awaits resolve to `chanA`. -/
def waitEnv : Env := { sampleEnv with waitOutcome := fun _ => .ok chanA }

/-- C4 counterexample: a request that resolves by awaiting another
attempt's pending future and receives a satisfying channel gets it
tagged `NewlyCreated` — not `Preexisting` as the claim states. -/
theorem wait_success_preexisting_counterexample :
    (get_or_launch_internal waitEnv idsA [.Building idsA 5]).result =
      .ok (chanA, .NewlyCreated) ∧
    (get_or_launch_internal waitEnv idsA [.Building idsA 5]).result ≠
      .ok (chanA, .Preexisting) := by
  decide

/-- C4 (amended): for every request that resolves by awaiting another
attempt's shared pending future and receives a channel whose confirmed
identity set satisfies the target, `get_or_launch_internal` returns
that channel as a terminal success tagged `NewlyCreated` (`mgr.rs` line
277), with no build of its own. -/
theorem wait_success_satisfied_newly_created
    (env : Env) (m : ChanMap) (target i0 : RelayIds) (p : Nat) (chan : Channel)
    (h1 : by_all_ids (env.interfereStart 0 m) target = some (.Building i0 p))
    (hw : env.waitOutcome 0 = .ok chan)
    (hs : chan.ids.hasAllIdsFrom target = true) :
    (get_or_launch_internal env target m).result = .ok (chan, .NewlyCreated) ∧
    (get_or_launch_internal env target m).attempts = 1 ∧
    (get_or_launch_internal env target m).builds = [] := by
  have hstep := step_wait_ok_satisfied (decideAction_exact_building 0 h1) hw hs
  rw [run_eq_done env target m hstep]
  exact ⟨rfl, rfl, rfl⟩

/-- Witness for the amended C4: waiting on an exact-match Building
record whose attempt succeeds with a satisfying channel is a terminal
`NewlyCreated` success. -/
theorem wait_success_satisfied_newly_created_witness :
    (by_all_ids (waitEnv.interfereStart 0 [.Building idsA 5]) idsA =
      some (.Building idsA 5)) ∧
    (waitEnv.waitOutcome 0 = .ok chanA) ∧
    (chanA.ids.hasAllIdsFrom idsA = true) ∧
    (get_or_launch_internal waitEnv idsA [.Building idsA 5]).result =
      .ok (chanA, .NewlyCreated) ∧
    (get_or_launch_internal waitEnv idsA [.Building idsA 5]).attempts = 1 ∧
    (get_or_launch_internal waitEnv idsA [.Building idsA 5]).builds = [] :=
  ⟨by decide, rfl, by decide,
    wait_success_satisfied_newly_created waitEnv [.Building idsA 5] idsA idsA 5 chanA
      (by decide) rfl (by decide)⟩

/-- C5: for every target whose exact-match entry is Open but unusable,
the decide step does not return that channel: it chooses the Launch
action, and in the updated map the unusable Open entry has been replaced
by a fresh Building record for this target — all inside the one critical
section.  (The hypothesis that no overlapping-but-not-exact record
exists is the map invariant of spec §3; `try_insert` fails otherwise.) -/
theorem unusable_open_relaunched
    (m : ChanMap) (target : RelayIds) (ch : Channel) (d : Nat) (p : Nat)
    (h1 : by_all_ids m target = some (.Open ch d))
    (h2 : ch.usable = false)
    (h3 : all_overlapping m target = []) :
    (decideAction m target p).1 = .ok (.Launch p) ∧
    by_all_ids (decideAction m target p).2 target = some (.Building target p) ∧
    (.Open ch d) ∉ (decideAction m target p).2 := by
  rw [decideAction_open_unusable p h1 h2 h3]
  refine ⟨rfl, ?_, ?_⟩
  · have h := by_all_ids_insert_self m (.Building target p)
    simpa [ChannelState.ids] using h
  · intro hmem
    unfold insert at hmem
    rcases List.mem_append.mp hmem with hl | hr
    · rcases List.mem_filter.mp hl with ⟨_, hpx⟩
      have hid : ch.ids = target := by
        have h := by_all_ids_some_ids h1
        simpa [ChannelState.ids] using h
      simp [ChannelState.ids, hid] at hpx
    · simp at hr

/-- Witness for C5: an unusable open entry for the exact target is
replaced by a Building record and a launch is chosen. -/
theorem unusable_open_relaunched_witness :
    (by_all_ids [ChannelState.Open chanU 200] idsA = some (.Open chanU 200)) ∧
    (chanU.usable = false) ∧
    (all_overlapping [ChannelState.Open chanU 200] idsA = []) ∧
    (decideAction [ChannelState.Open chanU 200] idsA 0).1 = .ok (.Launch 0) ∧
    by_all_ids (decideAction [ChannelState.Open chanU 200] idsA 0).2 idsA =
      some (.Building idsA 0) ∧
    (ChannelState.Open chanU 200) ∉ (decideAction [ChannelState.Open chanU 200] idsA 0).2 :=
  ⟨by decide, rfl, by decide,
    unusable_open_relaunched [ChannelState.Open chanU 200] idsA chanU 200 0
      (by decide) rfl (by decide)⟩

theorem try_insert_ok {m m1 : ChanMap} {e : ChannelState}
    (h : try_insert m e = .ok m1) : m1 = insert m e := by
  unfold try_insert at h
  split at h
  · cases h; rfl
  · cases h

theorem try_insert_ok_overlap {m m1 : ChanMap} {e : ChannelState}
    (h : try_insert m e = .ok m1) : all_overlapping m e.ids = [] := by
  unfold try_insert at h
  split at h
  · next hc => simpa [List.isEmpty_iff] using hc
  · cases h

/-- Number of Building records keyed by exactly `ids` in the map. -/
def buildingCount (m : ChanMap) (ids : RelayIds) : Nat :=
  (m.filter (fun e => e.isBuilding && decide (e.ids = ids))).length

theorem buildingCount_filter_le (m : ChanMap) (q : ChannelState → Bool) (ids : RelayIds) :
    buildingCount (m.filter q) ids ≤ buildingCount m ids :=
  (List.Sublist.filter _ (List.filter_sublist m)).length_le

theorem buildingCount_insert_le (m : ChanMap) (e : ChannelState) (ids : RelayIds)
    (h : buildingCount m ids ≤ 1) : buildingCount (insert m e) ids ≤ 1 := by
  have hsplit : buildingCount (insert m e) ids
      = buildingCount (m.filter (fun x => !decide (x.ids = e.ids))) ids
        + buildingCount [e] ids := by
    unfold insert buildingCount
    rw [List.filter_append, List.length_append]
  rw [hsplit]
  by_cases hc : e.ids = ids
  · have hpre : buildingCount (m.filter (fun x => !decide (x.ids = e.ids))) ids = 0 := by
      unfold buildingCount
      rw [List.length_eq_zero, List.filter_eq_nil_iff]
      intro a ha
      rcases List.mem_filter.mp ha with ⟨_, hpa⟩
      subst hc
      simp only [Bool.not_eq_true'] at hpa
      simp [hpa]
    have he1 : buildingCount [e] ids ≤ 1 := by
      unfold buildingCount
      exact le_trans (List.length_filter_le _ _) (by simp)
    omega
  · have he0 : buildingCount [e] ids = 0 := by
      unfold buildingCount
      simp [hc]
    have hm : buildingCount (m.filter (fun x => !decide (x.ids = e.ids))) ids ≤ 1 :=
      le_trans (buildingCount_filter_le m _ ids) h
    omega

theorem buildingCount_decideAction_le (m : ChanMap) (target ids : RelayIds) (p : Nat)
    (h : buildingCount m ids ≤ 1) :
    buildingCount (decideAction m target p).2 ids ≤ 1 := by
  unfold decideAction
  cases hba : by_all_ids m target with
  | some st =>
      cases st with
      | Open ch d =>
          by_cases hu : ch.usable
          · simpa [hu] using h
          · simp only [hu, Bool.false_eq_true, if_false]
            cases hti : try_insert m (.Building target p) with
            | ok m1 =>
                have := try_insert_ok hti
                subst this
                simpa using buildingCount_insert_le m _ ids h
            | error e => simpa using h
      | Building i0 q => simpa using h
  | none =>
      by_cases hov : (all_overlapping m target).any ChannelState.isOpenUsable
      · simpa [hov] using h
      · simp only [hov, Bool.false_eq_true, if_false]
        cases hf : (all_overlapping m target).find? ChannelState.isBuilding with
        | none =>
            cases hti : try_insert m (.Building target p) with
            | ok m1 =>
                have := try_insert_ok hti
                subst this
                simpa using buildingCount_insert_le m _ ids h
            | error e => simpa using h
        | some st =>
            cases st <;> simpa using h

theorem buildingCount_finishFailure_le (m : ChanMap) (t ids : RelayIds)
    (h : buildingCount m ids ≤ 1) : buildingCount (finishFailure m t) ids ≤ 1 := by
  unfold finishFailure
  cases hre : remove_exact m t with
  | mk o m2 =>
      have hm2 : m2 = m.filter (fun e => !decide (e.ids = t)) := (congrArg Prod.snd hre).symm
      cases o with
      | none => simpa using h
      | some st =>
          cases st with
          | Building i q =>
              subst hm2
              simpa using le_trans (buildingCount_filter_le m _ ids) h
          | Open c d =>
              subst hm2
              simpa using
                buildingCount_insert_le _ (.Open c d) ids
                  (le_trans (buildingCount_filter_le m _ ids) h)

theorem buildingCount_finishSuccess_le (m : ChanMap) (t ids : RelayIds) (chan : Channel)
    (hasUpdate : Bool) (seed : Nat) (h : buildingCount m ids ≤ 1) :
    buildingCount (finishSuccess m t chan hasUpdate seed).2 ids ≤ 1 := by
  unfold finishSuccess
  cases hre : remove_exact m t with
  | mk o m2 =>
      have hm2 : m2 = m.filter (fun e => !decide (e.ids = t)) := (congrArg Prod.snd hre).symm
      cases o with
      | none => simpa using h
      | some st =>
          cases st with
          | Building i q =>
              subst hm2
              by_cases hrp : hasUpdate && !chan.reparamOk
              · simpa [hrp] using le_trans (buildingCount_filter_le m _ ids) h
              · simp only [hrp, Bool.false_eq_true, if_false]
                simpa using
                  buildingCount_insert_le _ (.Open chan (gen_range 180 270 seed)) ids
                    (le_trans (buildingCount_filter_le m _ ids) h)
          | Open c d =>
              subst hm2
              simpa using
                buildingCount_insert_le _ (.Open c d) ids
                  (le_trans (buildingCount_filter_le m _ ids) h)

theorem decideAction_launch_no_building {m : ChanMap} {target : RelayIds} {p : Nat}
    (hL : (decideAction m target p).1 = .ok (.Launch p)) :
    (∀ st, by_all_ids m target = some st → st.isBuilding = false) ∧
    (∀ st ∈ all_overlapping m target, st.isBuilding = false) := by
  unfold decideAction at hL
  cases hba : by_all_ids m target with
  | some st =>
      rw [hba] at hL
      cases st with
      | Open ch d =>
          by_cases hu : ch.usable
          · simp [hu] at hL
          · simp only [hu, Bool.false_eq_true, if_false] at hL
            cases hti : try_insert m (.Building target p) with
            | ok m1 =>
                constructor
                · intro st' hst'
                  cases hst'
                  rfl
                · intro st' hst'
                  have hov := try_insert_ok_overlap hti
                  simp only [ChannelState.ids] at hov
                  rw [hov] at hst'
                  cases hst'
            | error e => rw [hti] at hL; cases hL
      | Building i0 q => cases hL
  | none =>
      rw [hba] at hL
      constructor
      · intro st' hst'
        cases hst'
      · by_cases hov : (all_overlapping m target).any ChannelState.isOpenUsable
        · simp [hov] at hL
        · simp only [hov, Bool.false_eq_true, if_false] at hL
          cases hf : (all_overlapping m target).find? ChannelState.isBuilding with
          | none =>
              intro st' hst'
              have := List.find?_eq_none.mp hf st' hst'
              simpa using this
          | some st =>
              rw [hf] at hL
              cases st with
              | Open c d => cases hL
              | Building i q => cases hL

/-- C2: every atomic critical section of `get_or_launch_internal`
preserves "at most one Building record per exact identity set", and the
decide step chooses Launch (the only path inserting a Building record,
via `try_insert`) only when the map holds neither an exact Building
entry nor any overlapping Building entry for the target. -/
theorem single_building_per_identity_set
    (m : ChanMap) (target ids : RelayIds) (p : Nat) (chan : Channel)
    (hasUpdate : Bool) (seed : Nat)
    (h : buildingCount m ids ≤ 1) :
    buildingCount (decideAction m target p).2 ids ≤ 1 ∧
    buildingCount (finishSuccess m target chan hasUpdate seed).2 ids ≤ 1 ∧
    buildingCount (finishFailure m target) ids ≤ 1 ∧
    ((decideAction m target p).1 = .ok (.Launch p) →
      (∀ st, by_all_ids m target = some st → st.isBuilding = false) ∧
      (∀ st ∈ all_overlapping m target, st.isBuilding = false)) :=
  ⟨buildingCount_decideAction_le m target ids p h,
   buildingCount_finishSuccess_le m target ids chan hasUpdate seed h,
   buildingCount_finishFailure_le m target ids h,
   fun hL => decideAction_launch_no_building hL⟩

/-- Witness for C2: on a map holding one unusable Open entry for the
target, the decide step and both reconcile steps keep at most one
Building record for the target's identity set. -/
theorem single_building_per_identity_set_witness :
    (buildingCount [ChannelState.Open chanU 200] idsA ≤ 1) ∧
    (buildingCount (decideAction [ChannelState.Open chanU 200] idsA 0).2 idsA ≤ 1 ∧
     buildingCount (finishSuccess [ChannelState.Open chanU 200] idsA chanA true 0).2 idsA ≤ 1 ∧
     buildingCount (finishFailure [ChannelState.Open chanU 200] idsA) idsA ≤ 1 ∧
     ((decideAction [ChannelState.Open chanU 200] idsA 0).1 = .ok (.Launch 0) →
       (∀ st, by_all_ids [ChannelState.Open chanU 200] idsA = some st →
         st.isBuilding = false) ∧
       (∀ st ∈ all_overlapping [ChannelState.Open chanU 200] idsA,
         st.isBuilding = false))) :=
  ⟨by decide,
    single_building_per_identity_set [ChannelState.Open chanU 200] idsA idsA 0 chanA
      true 0 (by decide)⟩

theorem loopRec_attempts_le (env : Env) (target : RelayIds) :
    ∀ (fuel : Nat) (m : ChanMap) (le : Option Error),
      (loopRec env target fuel m le).attempts ≤ fuel := by
  intro fuel
  induction fuel with
  | zero =>
      intro m le
      rw [loopRec_zero]
  | succ fuel ih =>
      intro m le
      rw [loopRec]
      cases hstep : step env target (N_ATTEMPTS - (fuel + 1)) m with
      | done r m1 tr s b => exact Nat.succ_le_succ (Nat.zero_le fuel)
      | retry e m1 tr s b => exact Nat.succ_le_succ (ih m1 (some e))

theorem loopRec_exhausted_result (env : Env) (target : RelayIds) :
    ∀ (fuel : Nat) (m : ChanMap) (le : Option Error),
      (loopRec env target fuel m le).exhausted = true →
      (loopRec env target fuel m le).result =
        .error (((loopRec env target fuel m le).recorded.getLast?).getD
          (le.getD (.Internal "no error was set!?"))) := by
  intro fuel
  induction fuel with
  | zero =>
      intro m le _h
      rw [loopRec_zero]
      rfl
  | succ fuel ih =>
      intro m le
      rw [loopRec]
      cases hstep : step env target (N_ATTEMPTS - (fuel + 1)) m with
      | done r m1 tr s b =>
          intro h
          exact absurd h (by simp)
      | retry e m1 tr s b =>
          intro h
          have hex : (loopRec env target fuel m1 (some e)).exhausted = true := by
            simpa using h
          have := ih m1 (some e) hex
          simpa [List.getLast?_cons] using this

/-- C3: the decide/act loop of `get_or_launch_internal` runs at most
`N_ATTEMPTS = 2` iterations, and when the bound is exhausted without a
terminal return the function returns exactly the last per-attempt error
recorded, unchanged — or the `Internal` "no error was set!?" defect if
no error was ever recorded. -/
theorem retry_bound_and_last_error (env : Env) (target : RelayIds) (m : ChanMap)
    (h : (get_or_launch_internal env target m).exhausted = true) :
    N_ATTEMPTS = 2 ∧
    (get_or_launch_internal env target m).attempts ≤ N_ATTEMPTS ∧
    (get_or_launch_internal env target m).result =
      .error (((get_or_launch_internal env target m).recorded.getLast?).getD
        (.Internal "no error was set!?")) :=
  ⟨rfl, loopRec_attempts_le env target N_ATTEMPTS m none,
    loopRec_exhausted_result env target N_ATTEMPTS m none h⟩

/-- Witness for C3: two consecutive build failures exhaust the bound and
the second failure's error is returned verbatim. -/
theorem retry_bound_and_last_error_witness :
    ((get_or_launch_internal sampleEnv idsA []).exhausted = true) ∧
    (N_ATTEMPTS = 2 ∧
     (get_or_launch_internal sampleEnv idsA []).attempts ≤ N_ATTEMPTS ∧
     (get_or_launch_internal sampleEnv idsA []).result =
       .error (((get_or_launch_internal sampleEnv idsA []).recorded.getLast?).getD
         (.Internal "no error was set!?"))) :=
  ⟨by decide, retry_bound_and_last_error sampleEnv idsA [] (by decide)⟩

/-- The event trace of one iteration. -/
def StepRes.trace : StepRes → List Ev
  | .done _ _ tr _ _ => tr
  | .retry _ _ tr _ _ => tr

/-- The build invocations of one iteration. -/
def StepRes.builds : StepRes → List Nat
  | .done _ _ _ _ b => b
  | .retry _ _ _ _ b => b

theorem step_trace_mem (env : Env) (target : RelayIds) (i : Nat) (m : ChanMap) :
    (step env target i m).trace = [.acq, .rel] ∨
    (step env target i m).trace = [.acq, .rel, .susp] ∨
    (step env target i m).trace = [.acq, .rel, .susp, .acq, .rel] := by
  simp only [step]
  generalize decideAction (env.interfereStart i m) target i = res
  obtain ⟨a, m1⟩ := res
  cases a with
  | error e => simp [StepRes.trace]
  | ok act =>
      cases act with
      | Return v => simp [StepRes.trace]
      | Wait p =>
          generalize env.waitOutcome i = w
          cases w with
          | ok chan =>
              by_cases hs : chan.ids.hasAllIdsFrom target <;> simp [StepRes.trace, hs]
          | err e => simp [StepRes.trace]
          | vanished => simp [StepRes.trace]
      | Launch s =>
          generalize env.buildOutcome i = bo
          cases bo with
          | ok chan =>
              split <;> try simp_all [StepRes.trace]
              all_goals
                split <;>
                  (rename_i heq2
                   split at heq2 <;> (cases heq2 <;> simp))
          | err e => simp [StepRes.trace]

theorem scanHeld_append (a : List Ev) :
    ∀ (h : Bool) (b : List Ev),
      scanHeld h (a ++ b) = (scanHeld h a).bind (fun h2 => scanHeld h2 b) := by
  induction a with
  | nil =>
      intro h b
      simp [scanHeld]
  | cons ev rest ih =>
      intro h b
      cases ev <;> cases h <;> simp [scanHeld, ih]

theorem scanHeld_loopRec (env : Env) (target : RelayIds) :
    ∀ (fuel : Nat) (m : ChanMap) (le : Option Error),
      scanHeld false (loopRec env target fuel m le).trace = some false := by
  intro fuel
  induction fuel with
  | zero =>
      intro m le
      rw [loopRec_zero]
      rfl
  | succ fuel ih =>
      intro m le
      rw [loopRec]
      have h3 := step_trace_mem env target (N_ATTEMPTS - (fuel + 1)) m
      cases hstep : step env target (N_ATTEMPTS - (fuel + 1)) m with
      | done r m1 tr s b =>
          rw [hstep] at h3
          simp only [StepRes.trace] at h3
          show scanHeld false tr = some false
          rcases h3 with h | h | h <;> rw [h] <;> rfl
      | retry e m1 tr s b =>
          rw [hstep] at h3
          simp only [StepRes.trace] at h3
          show scanHeld false (tr ++ (loopRec env target fuel m1 (some e)).trace) = some false
          rw [scanHeld_append]
          have htr : scanHeld false tr = some false := by
            rcases h3 with h | h | h <;> rw [h] <;> rfl
          rw [htr]
          simpa using ih m1 (some e)

/-- C9: in every execution of `get_or_launch_internal`, for every
environment, the event trace is lock-safe: the map lock is acquired and
released in well-bracketed non-nested sections, and every suspension
(`susp` — awaiting a shared pending future or `build_channel`) happens
while the lock is not held; the run also ends with the lock released. -/
theorem lock_never_held_across_suspension (env : Env) (target : RelayIds) (m : ChanMap) :
    scanHeld false (get_or_launch_internal env target m).trace = some false :=
  scanHeld_loopRec env target N_ATTEMPTS m none

theorem loopRec_one_attempts (env : Env) (target : RelayIds) (m : ChanMap)
    (le : Option Error) : (loopRec env target 1 m le).attempts = 1 := by
  cases hstep : step env target 1 m with
  | done r m1 tr s b => rw [loopRec_one_done env target m le hstep]
  | retry e m1 tr s b => rw [loopRec_one_retry env target m le hstep]

theorem finishFailure_none {m : ChanMap} {t : RelayIds}
    (h : by_all_ids m t = none) : finishFailure m t = m := by
  have h' : m.find? (fun e => decide (e.ids = t)) = none := h
  unfold finishFailure remove_exact
  rw [h']

theorem finishFailure_building {m : ChanMap} {t i0 : RelayIds} {p : Nat}
    (h : by_all_ids m t = some (.Building i0 p)) :
    finishFailure m t = (remove_exact m t).2 := by
  have h' : m.find? (fun e => decide (e.ids = t)) = some (.Building i0 p) := h
  unfold finishFailure remove_exact
  rw [h']

theorem finishFailure_open {m : ChanMap} {t : RelayIds} {c : Channel} {d : Nat}
    (h : by_all_ids m t = some (.Open c d)) :
    finishFailure m t = insert (remove_exact m t).2 (.Open c d) := by
  have h' : m.find? (fun e => decide (e.ids = t)) = some (.Open c d) := h
  unfold finishFailure remove_exact
  rw [h']

/-- C6: when the Factory build fails, the reconcile step removes the
Building entry for the target if still present, restores unchanged any
Open entry found in its place (and does nothing when no entry remains),
the same build error is sent on the attempt's sender for all waiters,
and that error is recorded as the iteration's error. -/
theorem build_failure_reconcile
    (env : Env) (m : ChanMap) (target : RelayIds) (e : Error) (q : Nat) (m1 : ChanMap)
    (hd : decideAction (env.interfereStart 0 m) target 0 = (.ok (.Launch q), m1))
    (hb : env.buildOutcome 0 = .err e) :
    step env target 0 m =
      .retry e (finishFailure (env.interfereAwait 0 m1) target)
        [.acq, .rel, .susp, .acq, .rel] [(0, .error e)] [0] ∧
    (get_or_launch_internal env target m).sent.head? = some (0, .error e) ∧
    (get_or_launch_internal env target m).recorded.head? = some e ∧
    (∀ (m2 : ChanMap) (i0 : RelayIds) (p : Nat),
      by_all_ids m2 target = some (.Building i0 p) →
      by_all_ids (finishFailure m2 target) target = none) ∧
    (∀ (m2 : ChanMap) (c : Channel) (d : Nat),
      by_all_ids m2 target = some (.Open c d) →
      by_all_ids (finishFailure m2 target) target = some (.Open c d)) ∧
    (∀ m2 : ChanMap, by_all_ids m2 target = none → finishFailure m2 target = m2) := by
  have hstep := step_launch_fail hd hb
  have hrun := run_eq_retry env target m hstep
  refine ⟨hstep, ?_, ?_, ?_, ?_, fun m2 h2 => finishFailure_none h2⟩
  · rw [hrun]
    simp
  · rw [hrun]
    simp
  · intro m2 i0 p h2
    rw [finishFailure_building h2]
    exact remove_exact_snd_by_all_ids m2 target
  · intro m2 c d h2
    rw [finishFailure_open h2]
    have hid : c.ids = target := by
      have h3 := by_all_ids_some_ids h2
      simpa [ChannelState.ids] using h3
    have h4 := by_all_ids_insert_self (remove_exact m2 target).2 (.Open c d)
    simpa [ChannelState.ids, hid] using h4

/-- Witness for C6: a failing build on an empty map sends and records
the build error, and the reconcile helper behaves as stated on maps
holding a Building entry, an Open entry, or nothing. -/
theorem build_failure_reconcile_witness :
    (decideAction (sampleEnv.interfereStart 0 []) idsA 0 =
      (.ok (.Launch 0), [.Building idsA 0])) ∧
    (sampleEnv.buildOutcome 0 = .err (.External 7)) ∧
    (step sampleEnv idsA 0 [] =
      .retry (.External 7) (finishFailure (sampleEnv.interfereAwait 0 [.Building idsA 0]) idsA)
        [.acq, .rel, .susp, .acq, .rel] [(0, .error (.External 7))] [0] ∧
     (get_or_launch_internal sampleEnv idsA []).sent.head? =
       some (0, .error (.External 7)) ∧
     (get_or_launch_internal sampleEnv idsA []).recorded.head? = some (.External 7) ∧
     (∀ (m2 : ChanMap) (i0 : RelayIds) (p : Nat),
       by_all_ids m2 idsA = some (.Building i0 p) →
       by_all_ids (finishFailure m2 idsA) idsA = none) ∧
     (∀ (m2 : ChanMap) (c : Channel) (d : Nat),
       by_all_ids m2 idsA = some (.Open c d) →
       by_all_ids (finishFailure m2 idsA) idsA = some (.Open c d)) ∧
     (∀ m2 : ChanMap, by_all_ids m2 idsA = none → finishFailure m2 idsA = m2)) :=
  ⟨by decide, rfl,
    build_failure_reconcile sampleEnv [] idsA (.External 7) 0 [.Building idsA 0]
      (by decide) rfl⟩

theorem step_builds_of_launch {env : Env} {target : RelayIds} {i : Nat} {m : ChanMap}
    {q : Nat} {m1 : ChanMap}
    (h : decideAction (env.interfereStart i m) target i = (.ok (.Launch q), m1)) :
    (step env target i m).builds = [i] := by
  simp only [step]
  rw [h]
  cases hb : env.buildOutcome i with
  | ok chan =>
      split <;> try simp_all [StepRes.builds]
      all_goals
        split <;>
          (rename_i heq2
           split at heq2 <;> (cases heq2 <;> simp))
  | err e => simp [StepRes.builds]

theorem loopRec_one_builds (env : Env) (target : RelayIds) (m : ChanMap) (le : Option Error)
    (h : (step env target 1 m).builds = [1]) :
    (loopRec env target 1 m le).builds = [1] := by
  cases hstep : step env target 1 m with
  | done r m1 tr s b =>
      rw [loopRec_one_done env target m le hstep]
      rw [hstep] at h
      simpa [StepRes.builds] using h
  | retry e m1 tr s b =>
      rw [loopRec_one_retry env target m le hstep]
      rw [hstep] at h
      simpa [StepRes.builds] using h

/-- C7: when the shared pending future a waiter awaits resolves as
vanished (sender dropped without sending), the total embedding resolves
it to the retryable internal error "channel build task disappeared",
records it as the iteration's error, and proceeds to a second iteration;
when by then the stale entry is gone, the second attempt launches a
build. -/
theorem sender_vanished_retries
    (env : Env) (m : ChanMap) (target : RelayIds) (p : Nat) (m1 : ChanMap)
    (hd : decideAction (env.interfereStart 0 m) target 0 = (.ok (.Wait p), m1))
    (hw : env.waitOutcome 0 = .vanished)
    (h1 : by_all_ids (env.interfereStart 1 (env.interfereAwait 0 m1)) target = none)
    (h2 : all_overlapping (env.interfereStart 1 (env.interfereAwait 0 m1)) target = []) :
    (get_or_launch_internal env target m).recorded.head? =
      some (.Internal "channel build task disappeared") ∧
    (get_or_launch_internal env target m).attempts = 2 ∧
    (get_or_launch_internal env target m).builds = [1] := by
  have hstep0 := step_wait_vanished hd hw
  have hrun := run_eq_retry env target m hstep0
  refine ⟨?_, ?_, ?_⟩
  · rw [hrun]
    simp
  · rw [hrun]
    simp [loopRec_one_attempts]
  · rw [hrun]
    have hd1 := decideAction_empty_launch 1 h1 h2
    have hb1 := step_builds_of_launch hd1
    simpa using loopRec_one_builds env target (env.interfereAwait 0 m1)
      (some (.Internal "channel build task disappeared")) hb1

/-- Environment for the vanished-sender scenario: the stale Building
entry is cleared by another task before the second attempt decides. -/
def vanishEnv : Env :=
  { sampleEnv with
    buildOutcome := fun _ => .ok chanA
    interfereStart := fun i mm => if i = 1 then [] else mm }

/-- Witness for C7: a wait on a Building record whose sender vanishes is
mapped to the internal retryable error, and the second iteration
launches a build. -/
theorem sender_vanished_retries_witness :
    (decideAction (vanishEnv.interfereStart 0 [.Building idsA 5]) idsA 0 =
      (.ok (.Wait 5), [.Building idsA 5])) ∧
    (vanishEnv.waitOutcome 0 = .vanished) ∧
    (by_all_ids (vanishEnv.interfereStart 1
      (vanishEnv.interfereAwait 0 [.Building idsA 5])) idsA = none) ∧
    (all_overlapping (vanishEnv.interfereStart 1
      (vanishEnv.interfereAwait 0 [.Building idsA 5])) idsA = []) ∧
    ((get_or_launch_internal vanishEnv idsA [.Building idsA 5]).recorded.head? =
      some (.Internal "channel build task disappeared") ∧
     (get_or_launch_internal vanishEnv idsA [.Building idsA 5]).attempts = 2 ∧
     (get_or_launch_internal vanishEnv idsA [.Building idsA 5]).builds = [1]) :=
  ⟨by decide, rfl, by decide, by decide,
    sender_vanished_retries vanishEnv [.Building idsA 5] idsA 5 [.Building idsA 5]
      (by decide) rfl (by decide) (by decide)⟩

theorem finishSuccess_reparam_fail {m : ChanMap} {t i0 : RelayIds} {p : Nat}
    {chan : Channel} (seed : Nat)
    (h : by_all_ids m t = some (.Building i0 p)) (hr : chan.reparamOk = false) :
    finishSuccess m t chan true seed =
      (.error (.Internal "failure on new channel"), (remove_exact m t).2) := by
  have h' : m.find? (fun e => decide (e.ids = t)) = some (.Building i0 p) := h
  unfold finishSuccess remove_exact
  rw [h']
  simp [hr]

theorem finishSuccess_ok {m : ChanMap} {t i0 : RelayIds} {p : Nat} {chan : Channel}
    {hasUpdate : Bool} (seed : Nat)
    (h : by_all_ids m t = some (.Building i0 p))
    (hok : (hasUpdate && !chan.reparamOk) = false) :
    finishSuccess m t chan hasUpdate seed =
      (.ok chan, insert (remove_exact m t).2 (.Open chan (gen_range 180 270 seed))) := by
  have h' : m.find? (fun e => decide (e.ids = t)) = some (.Building i0 p) := h
  unfold finishSuccess remove_exact
  rw [h']
  simp [hok]

/-- C10: when a build succeeds but applying the initial
reparameterization update to the new channel fails, the success
reconcile step returns the `Internal` "failure on new channel" error
with the Building entry already removed and nothing inserted — the
target is left with no entry — and the run sends that error to the
waiters, records it as the iteration's error, and retries. -/
theorem reparam_failure_no_entry
    (env : Env) (m : ChanMap) (target : RelayIds) (q : Nat) (m1 : ChanMap)
    (chan : Channel) (i0 : RelayIds) (p : Nat)
    (hd : decideAction (env.interfereStart 0 m) target 0 = (.ok (.Launch q), m1))
    (hb : env.buildOutcome 0 = .ok chan)
    (hu : env.hasInitialUpdate 0 = true)
    (hr : chan.reparamOk = false)
    (hbi : by_all_ids (env.interfereAwait 0 m1) target = some (.Building i0 p)) :
    finishSuccess (env.interfereAwait 0 m1) target chan (env.hasInitialUpdate 0)
      (env.rngSeed 0) =
      (.error (.Internal "failure on new channel"),
       (remove_exact (env.interfereAwait 0 m1) target).2) ∧
    by_all_ids (finishSuccess (env.interfereAwait 0 m1) target chan
      (env.hasInitialUpdate 0) (env.rngSeed 0)).2 target = none ∧
    (get_or_launch_internal env target m).sent.head? =
      some (0, .error (.Internal "failure on new channel")) ∧
    (get_or_launch_internal env target m).recorded.head? =
      some (.Internal "failure on new channel") ∧
    (get_or_launch_internal env target m).attempts = 2 := by
  have hfs : finishSuccess (env.interfereAwait 0 m1) target chan (env.hasInitialUpdate 0)
      (env.rngSeed 0) =
      (.error (.Internal "failure on new channel"),
       (remove_exact (env.interfereAwait 0 m1) target).2) := by
    rw [hu]
    exact finishSuccess_reparam_fail (env.rngSeed 0) hbi hr
  have hstep := step_launch_ok_bad hd hb hfs
  have hrun := run_eq_retry env target m hstep
  refine ⟨hfs, ?_, ?_, ?_, ?_⟩
  · rw [hfs]
    exact remove_exact_snd_by_all_ids _ _
  · rw [hrun]
    simp
  · rw [hrun]
    simp
  · rw [hrun]
    simp [loopRec_one_attempts]

/-- A channel holding `idsA` whose reparameterize hook fails. -/
def chanR : Channel := { tag := 4, ids := idsA, usable := true, reparamOk := false }

/-- Environment for the reparameterization-failure scenario: the build
succeeds with a channel whose `reparameterize` hook fails, and an
initial update is pending. -/
def reparamEnv : Env :=
  { sampleEnv with
    buildOutcome := fun _ => .ok chanR
    hasInitialUpdate := fun _ => true }

/-- Witness for C10: a successful build followed by a failing
reparameterization leaves the target with no entry, sends and records
the internal error, and leads to a second attempt. -/
theorem reparam_failure_no_entry_witness :
    (decideAction (reparamEnv.interfereStart 0 []) idsA 0 =
      (.ok (.Launch 0), [.Building idsA 0])) ∧
    (reparamEnv.buildOutcome 0 = .ok chanR) ∧
    (reparamEnv.hasInitialUpdate 0 = true) ∧
    (chanR.reparamOk = false) ∧
    (by_all_ids (reparamEnv.interfereAwait 0 [.Building idsA 0]) idsA =
      some (.Building idsA 0)) ∧
    ((get_or_launch_internal reparamEnv idsA []).sent.head? =
      some (0, .error (.Internal "failure on new channel")) ∧
     (get_or_launch_internal reparamEnv idsA []).recorded.head? =
      some (.Internal "failure on new channel") ∧
     (get_or_launch_internal reparamEnv idsA []).attempts = 2) :=
  ⟨by decide, rfl, rfl, rfl, by decide,
    (reparam_failure_no_entry reparamEnv [] idsA 0 [.Building idsA 0] chanR idsA 0
      (by decide) rfl rfl rfl (by decide)).2.2⟩

/-- Per-entry idle budgets of a map, by position. -/
def budgets (m : ChanMap) : List (Option Nat) :=
  m.map (fun e =>
    match e with
    | .Open _ d => some d
    | .Building _ _ => none)

theorem budgets_reconfigure (f : Channel → Channel) (mm : ChanMap) :
    budgets (reconfigure_general f mm) = budgets mm := by
  induction mm with
  | nil => rfl
  | cons e rest ih =>
      cases e with
      | Open c d => simpa [budgets, reconfigure_general] using ih
      | Building i p => simpa [budgets, reconfigure_general] using ih

/-- C8: on a successful build (Building entry still present,
reparameterization not failing), the success reconcile inserts the new
Open entry with `max_unused_duration = gen_range 180 270 seed`, a value
within the 180–270 second range (drawn once, at the transition to Open),
and no reconfigure operation ever changes any Open entry's budget. -/
theorem idle_budget_fixed_range
    (m : ChanMap) (target i0 : RelayIds) (p : Nat) (chan : Channel)
    (hasUpdate : Bool) (seed : Nat)
    (hbi : by_all_ids m target = some (.Building i0 p))
    (hok : (hasUpdate && !chan.reparamOk) = false) :
    finishSuccess m target chan hasUpdate seed =
      (.ok chan, insert (remove_exact m target).2
        (.Open chan (gen_range 180 270 seed))) ∧
    180 ≤ gen_range 180 270 seed ∧
    gen_range 180 270 seed < 270 ∧
    by_all_ids (finishSuccess m target chan hasUpdate seed).2 chan.ids =
      some (.Open chan (gen_range 180 270 seed)) ∧
    (∀ (f : Channel → Channel) (mm : ChanMap),
      budgets (reconfigure_general f mm) = budgets mm) := by
  have hfs := finishSuccess_ok seed hbi hok
  refine ⟨hfs, ?_, ?_, ?_, fun f mm => budgets_reconfigure f mm⟩
  · unfold gen_range
    omega
  · unfold gen_range
    omega
  · rw [hfs]
    have h := by_all_ids_insert_self (remove_exact m target).2
      (.Open chan (gen_range 180 270 seed))
    simpa [ChannelState.ids] using h

/-- Witness for C8: a concrete successful build draws a budget in range
and reconfiguration preserves all budgets. -/
theorem idle_budget_fixed_range_witness :
    (by_all_ids [ChannelState.Building idsA 0] idsA = some (.Building idsA 0)) ∧
    ((false && !chanA.reparamOk) = false) ∧
    (finishSuccess [ChannelState.Building idsA 0] idsA chanA false 33 =
      (.ok chanA, insert (remove_exact [ChannelState.Building idsA 0] idsA).2
        (.Open chanA (gen_range 180 270 33))) ∧
     180 ≤ gen_range 180 270 33 ∧
     gen_range 180 270 33 < 270 ∧
     by_all_ids (finishSuccess [ChannelState.Building idsA 0] idsA chanA false 33).2
       chanA.ids = some (.Open chanA (gen_range 180 270 33)) ∧
     (∀ (f : Channel → Channel) (mm : ChanMap),
       budgets (reconfigure_general f mm) = budgets mm)) :=
  ⟨by decide, rfl,
    idle_budget_fixed_range [ChannelState.Building idsA 0] idsA idsA 0 chanA false 33
      (by decide) rfl⟩

end ChanMgr
